import Mathlib

set_option maxHeartbeats 1000000

/-!
Shallow embedding of the melanoma TILs annotation pipeline.

Stage 1 (src/scripts_melanoma_analysis/01_tsv_to_geojson.py) synthesizes one
square polygon feature per detected nucleus point and writes one feature
collection per sample subfolder.

Stage 2 (src/scripts_melanoma_analysis/02_filter_nuclei_tumor_area.py) filters
each sample's nuclei to those within tumor tissue and outside necrosis tissue,
persists the filtered collection, and aggregates per-grid-cell class counts
and percentages into a statistics table.

External collaborators (the JSON string parser, the spatial predicate
evaluator of geopandas sjoin, the grid tiling primitive of cellseg_gsontools,
and the file readers and writers) are passed in as parameters, following the
interfaces the scripts rely on.  Machine floats are idealized as rationals;
the NaN and infinity values pandas can produce during the percentage division
are modelled explicitly by the PVal type.
-/

/-- Model of Python str.lower as used on class names: lower-case every
character of the string. -/
def lowerStr (s : String) : String := ⟨s.data.map Char.toLower⟩

/-- The COLORS table of 01_tsv_to_geojson.py, mapping class names to RGB
display colors. -/
def COLORS : List (String × (Nat × Nat × Nat)) :=
  [("nuclei_lymphocyte", (0, 255, 255)),
   ("nuclei_tumor", (255, 0, 0)),
   ("nuclei_other", (255, 255, 0))]

/-- COLORS.get(name, [0, 0, 0]) as used when synthesizing a feature. -/
def colorFor (name : String) : Nat × Nat × Nat :=
  match COLORS.lookup name with
  | some c => c
  | none => (0, 0, 0)

/-- create_square_polygon of 01_tsv_to_geojson.py: the explicit closed ring
of five vertices around the center point, half the size on each side. -/
def create_square_polygon (x y size : ℚ) : List (ℚ × ℚ) :=
  let half_size := size / 2
  [(x - half_size, y - half_size),
   (x + half_size, y - half_size),
   (x + half_size, y + half_size),
   (x - half_size, y + half_size),
   (x - half_size, y - half_size)]

/-- One input TSV row: x and y coordinates and the class label. -/
structure PointRow where
  x : ℚ
  y : ℚ
  name : String

/-- The synthesized feature payload: geometry ring plus classification name
and color (the uuid is drawn at synthesis time and not modelled). -/
structure SynthFeature where
  ring : List (ℚ × ℚ)
  className : String
  color : Nat × Nat × Nat
deriving DecidableEq

/-- Feature synthesis for one row, from the inner loop of process_subfolder:
the square polygon uses the default size 15. -/
def mkFeature (r : PointRow) : SynthFeature :=
  ⟨create_square_polygon r.x r.y 15, r.name, colorFor r.name⟩

/-- A Stage 1 sample subfolder: its name and how many TSV files it holds. -/
structure Subfolder where
  name : String
  tsvCount : Nat

/-- The Stage 1 output directory: filename to file bytes, none when absent. -/
abbrev St1State : Type := String → Option String

/-- The per-subfolder output filename. -/
def outName (sub : String) : String := sub ++ ".geojson"

/-- Writing one file into the directory state. -/
def writeFile (s : St1State) (k v : String) : St1State :=
  fun n => if n = k then some v else s n

/-- One iteration of the subfolder loop in main of 01_tsv_to_geojson.py:
skip when the output file already exists, otherwise run process_subfolder,
which writes nothing when the subfolder holds no TSV files and otherwise
writes the generated feature collection.  gen abstracts the emitted GeoJSON
bytes, which depend on the TSV contents and on freshly drawn uuids. -/
def stage1Step (gen : Subfolder → String) (s : St1State) (sub : Subfolder) : St1State :=
  match s (outName sub.name) with
  | some _ => s
  | none =>
    if sub.tsvCount = 0 then s
    else writeFile s (outName sub.name) (gen sub)

/-- Folding the subfolder loop over a list of subfolders. -/
def runStage1 (gen : Subfolder → String) (subs : List Subfolder) (s : St1State) : St1State :=
  subs.foldl (stage1Step gen) s

/-- Insertion into a list kept in descending name order. -/
def insertDesc (a : Subfolder) : List Subfolder → List Subfolder
  | [] => [a]
  | b :: bs => if b.name < a.name then a :: b :: bs else b :: insertDesc a bs

/-- sorted(subfolders, reverse=True): descending name order. -/
def sortDesc (subs : List Subfolder) : List Subfolder :=
  subs.foldr insertDesc []

/-- main of 01_tsv_to_geojson.py: sort the subfolders in descending name
order, then process each in sequence against the output directory state. -/
def stage1Main (gen : Subfolder → String) (subs : List Subfolder) (s : St1State) : St1State :=
  runStage1 gen (sortDesc subs) s

/-- Value stored under the name key of a classification dict: either a JSON
string or JSON null (Python None). -/
inductive NameVal where
  | str (s : String)
  | null
deriving DecidableEq

/-- A classification dict, as far as Stage 2 inspects it: whether the name
key is present, its value when it is, and whether other keys make the dict
nonempty for Python truthiness. -/
structure CDict where
  hasName : Bool
  nameVal : NameVal
  hasOtherKeys : Bool
deriving DecidableEq

/-- The null-name placeholder dict substituted by parse_classification. -/
def nullNameDict : CDict := ⟨true, NameVal.null, false⟩

/-- Python x.get with empty-string default, as used on class names. -/
def pyGetName (d : CDict) : NameVal :=
  if d.hasName then d.nameVal else NameVal.str ""

/-- Python truthiness of a dict: it is nonempty. -/
def dictTruthy (d : CDict) : Bool := d.hasName || d.hasOtherKeys

/-- A raw classification cell as loaded by read_gdf: a serialized string, an
already-structured dict, null, or a value of some other type. -/
inductive Payload where
  | pstr (s : String)
  | pdict (d : CDict)
  | pnull
  | pother
deriving DecidableEq

/-- parse_classification of 02_filter_nuclei_tumor_area.py.  The JSON string
parser json.loads is external and passed in as jp; jp returning none models
a JSONDecodeError, in which case the null-name placeholder is substituted.
Values that are neither strings nor dicts also get the placeholder. -/
def parse_classification (jp : String → Option CDict) : Payload → CDict
  | Payload.pstr s =>
    match jp s with
    | some d => d
    | none => nullNameDict
  | Payload.pdict d => d
  | Payload.pnull => nullNameDict
  | Payload.pother => nullNameDict

/-- The tissue class_name lambda (line 102): x.get("name", "").lower() when
the dict is truthy, else None.  Calling lower() on a null name value raises
an AttributeError, which the surrounding except KeyError does not catch. -/
def tissueClassName (d : CDict) : Except String (Option String) :=
  if dictTruthy d then
    match pyGetName d with
    | NameVal.str s => Except.ok (some (lowerStr s))
    | NameVal.null => Except.error "AttributeError"
  else Except.ok none

/-- The nuclei class_name lambda (line 104): plain x.get with no lower call
and no truthiness guard. -/
def nucleiClassName (d : CDict) : NameVal := pyGetName d

/-- A tissue feature as loaded: geometry plus raw classification payload. -/
structure TFeatureIn (G : Type) where
  geom : G
  classification : Payload
deriving DecidableEq

/-- A nuclei feature as loaded: geometry plus raw classification payload. -/
structure NFeatureIn (G : Type) where
  geom : G
  classification : Payload
deriving DecidableEq

/-- A tissue row after classification processing. -/
structure TRow (G : Type) where
  geom : G
  class_name : Option String
deriving DecidableEq

/-- A nuclei row after classification processing. -/
structure NRow (G : Type) where
  geom : G
  class_name : NameVal
deriving DecidableEq

/-- Lines 89 and 101-102: drop rows with null classification, parse each
payload, then compute the lower-cased class name.  An AttributeError from
the lower call escapes as an error; pandas apply stops at the first one. -/
def processTissue {G : Type} (jp : String → Option CDict) (ts : List (TFeatureIn G)) :
    Except String (List (TRow G)) :=
  (ts.filter (fun f => decide (f.classification ≠ Payload.pnull))).mapM
    (fun f => (tissueClassName (parse_classification jp f.classification)).map
      (fun cn => ⟨f.geom, cn⟩))

/-- Lines 103-104 for nuclei: parse each payload, then read the raw name
value; no null filtering and no exception possible. -/
def processNuclei {G : Type} (jp : String → Option CDict) (ns : List (NFeatureIn G)) :
    List (NRow G) :=
  ns.map (fun f => ⟨f.geom, nucleiClassName (parse_classification jp f.classification)⟩)

/-- Pair each row with its positional index, which is the GeoDataFrame
index sjoin preserves on the left side. -/
def withIdx {α : Type} : Nat → List α → List (Nat × α)
  | _, [] => []
  | i, a :: as => (i, a) :: withIdx (i + 1) as

/-- gpd.sjoin(nuclei, tumor_filter, how=inner, predicate=within) after the
right-hand metadata columns are dropped (lines 113-115): one row per pair
of a nucleus and a tumor polygon it lies within, keeping the left row and
its index. -/
def nuclei_within_tumor {G : Type} (within : G → G → Bool) (nuclei : List (NRow G))
    (tumor : List G) : List (Nat × NRow G) :=
  (withIdx 0 nuclei).flatMap
    (fun p => (tumor.filter (fun t => within p.2.geom t)).map (fun _ => p))

/-- Lines 116-117: the set of indices of tumor-join rows that are also
within some necrosis polygon. -/
def necrosisIds {G : Type} (within : G → G → Bool) (rows : List (Nat × NRow G))
    (necrosis : List G) : List Nat :=
  (rows.filter (fun p => necrosis.any (fun c => within p.2.geom c))).map (fun p => p.1)

/-- drop_duplicates on the geometry column, keeping first occurrences; seen
accumulates geometries already emitted. -/
def dropDupGeom {G : Type} [DecidableEq G] :
    List (Nat × NRow G) → List G → List (Nat × NRow G)
  | [], _ => []
  | p :: ps, seen =>
    if p.2.geom ∈ seen then dropDupGeom ps seen
    else p :: dropDupGeom ps (p.2.geom :: seen)

/-- Lines 113-119: nuclei within some tumor polygon, minus the rows whose
index joined to some necrosis polygon, deduplicated by exact geometry.
This is the collection persisted at line 125. -/
def filterNuclei {G : Type} [DecidableEq G] (within : G → G → Bool)
    (nuclei : List (NRow G)) (tumor necrosis : List G) : List (Nat × NRow G) :=
  let wt := nuclei_within_tumor within nuclei tumor
  let nids := necrosisIds within wt necrosis
  dropDupGeom (wt.filter (fun p => decide (p.1 ∉ nids))) []

/-- A pandas float cell value: a finite number, NaN, or infinity. -/
inductive PVal where
  | num (q : ℚ)
  | nan
  | inf
deriving DecidableEq

/-- Division as pandas performs it on count columns: zero over zero gives
NaN, a nonzero numerator over zero gives infinity. -/
def pdiv (a b : ℚ) : PVal :=
  if b = 0 then (if a = 0 then PVal.nan else PVal.inf) else PVal.num (a / b)

/-- Multiplying a cell value by 100; NaN and infinity are absorbing. -/
def pvalMul100 : PVal → PVal
  | PVal.num a => PVal.num (a * 100)
  | PVal.nan => PVal.nan
  | PVal.inf => PVal.inf

/-- fillna(0): NaN becomes 0, everything else is kept. -/
def fillna0 : PVal → PVal
  | PVal.nan => PVal.num 0
  | v => v

/-- One percentage cell: (count / total) * 100 followed by fillna(0). -/
def percentageEntry (cnt total : Nat) : PVal :=
  fillna0 (pvalMul100 (pdiv (cnt : ℚ) (total : ℚ)))

/-- pandas unique: deduplication keeping first-occurrence order; seen
accumulates values already emitted. -/
def uniqueList {β : Type} [DecidableEq β] : List β → List β → List β
  | [], _ => []
  | b :: bs, seen =>
    if b ∈ seen then uniqueList bs seen
    else b :: uniqueList bs (b :: seen)

/-- get_total_cell_cnt_per_class composed with the grid_classify contract
(intersects predicate): the number of retained nuclei of the given class
whose geometry intersects the grid cell; an empty sub-frame counts zero. -/
def get_total_cell_cnt_per_class {G : Type} [DecidableEq G] (intersects : G → G → Bool)
    (rows : List (NRow G)) (cell : G) (c : NameVal) : Nat :=
  ((rows.filter (fun r => intersects r.geom cell)).filter
    (fun r => decide (r.class_name = c))).length

/-- The nuclei argument of add_percentage_columns: its rows plus whether the
class_name column exists (accessing a missing column raises KeyError). -/
structure NFrame (G : Type) where
  rows : List (NRow G)
  hasClassName : Bool
deriving DecidableEq

/-- One row of the statistics table: cell geometry, the per-class count
columns, the total count, and the per-class percentage columns. -/
structure StatRow (G : Type) where
  cellGeom : G
  counts : List (NameVal × Nat)
  total_cell_cnt : Nat
  percentages : List (NameVal × PVal)
deriving DecidableEq

/-- add_percentage_columns of 02_filter_nuclei_tumor_area.py.  Returns none
when the nuclei frame is missing or empty, when the class_name column is
absent, or when the classified grid is empty; otherwise adds one count
column per observed class, the total, and the percentage columns. -/
def add_percentage_columns {G : Type} [DecidableEq G] (intersects : G → G → Bool)
    (grid0 : List G) (nuclei : Option (NFrame G)) : Option (List (StatRow G)) :=
  match nuclei with
  | none => none
  | some nf =>
    if nf.rows.isEmpty then none
    else if !nf.hasClassName then none
    else
      let classes := uniqueList (nf.rows.map (fun r => r.class_name)) []
      let grid1 := grid0.map (fun g =>
        (g, classes.map (fun c => (c, get_total_cell_cnt_per_class intersects nf.rows g c))))
      if grid1.isEmpty then none
      else some (grid1.map (fun gc =>
        let total := (gc.2.map (fun p => p.2)).sum
        ⟨gc.1, gc.2, total, gc.2.map (fun p => (p.1, percentageEntry p.2 total))⟩))

/-- The filesystem artifacts of one Stage 2 sample: the lock marker, the
statistics table, and the filtered nuclei feature collection. -/
structure FsState where
  lockPresent : Bool
  outputPresent : Bool
  geojsonPresent : Bool
deriving DecidableEq

/-- How processing of one Stage 2 sample ended. -/
inductive Outcome where
  | skippedOutputExists
  | skippedLocked
  | skippedSmallTissue
  | skippedTissueLoadError
  | skippedNucleiLoadError
  | skippedKeyError
  | crashedAttributeError
  | skippedJoinError
  | skippedGridError
  | completedNoTable
  | completedWithTable
deriving DecidableEq

/-- The per-sample environment for Stage 2: pre-existing artifacts, the
tissue file size, the results of the external file loads (none models a
read_gdf exception), whether the classification columns exist, and whether
the external spatial join or grid primitives raise. -/
structure Env (G : Type) where
  outputExists : Bool
  lockExists : Bool
  tissueSize : Nat
  tissueLoad : Option (List (TFeatureIn G))
  nucleiLoad : Option (List (NFeatureIn G))
  tissueHasClassCol : Bool
  nucleiHasClassCol : Bool
  joinRaises : Bool
  gridRaises : Bool

/-- The loop body of process_geojson_files for one sample present in both
the nuclei and the tissue listings, returning the final per-sample
filesystem state and the outcome.  The order of the steps mirrors lines
54-137: output check, lock check and lock creation, tissue size check,
tissue load, nuclei load, classification processing (a tissue
AttributeError is uncaught and aborts the whole run), tumor and necrosis
extraction, spatial join, persisting the filtered collection, grid overlay
and classification, table write, lock removal. -/
def process_geojson_sample {G : Type} [DecidableEq G] (jp : String → Option CDict)
    (within intersects : G → G → Bool) (gridOverlay : List (Nat × NRow G) → List G)
    (env : Env G) : FsState × Outcome :=
  if env.outputExists then (⟨env.lockExists, true, false⟩, Outcome.skippedOutputExists)
  else if env.lockExists then (⟨true, false, false⟩, Outcome.skippedLocked)
  else
    if env.tissueSize < 2 * 1024 then (⟨true, false, false⟩, Outcome.skippedSmallTissue)
    else
      match env.tissueLoad with
      | none => (⟨true, false, false⟩, Outcome.skippedTissueLoadError)
      | some tsRaw =>
        match env.nucleiLoad with
        | none => (⟨true, false, false⟩, Outcome.skippedNucleiLoadError)
        | some nsRaw =>
          if !env.tissueHasClassCol then (⟨true, false, false⟩, Outcome.skippedKeyError)
          else
            match processTissue jp tsRaw with
            | Except.error _ => (⟨true, false, false⟩, Outcome.crashedAttributeError)
            | Except.ok tRows =>
              if !env.nucleiHasClassCol then (⟨true, false, false⟩, Outcome.skippedKeyError)
              else
                let nRows := processNuclei jp nsRaw
                let tumorG := (tRows.filter (fun t => t.class_name == some "tumor")).map
                  (fun t => t.geom)
                let necroG := (tRows.filter (fun t => t.class_name == some "necrosis")).map
                  (fun t => t.geom)
                if env.joinRaises then (⟨true, false, false⟩, Outcome.skippedJoinError)
                else
                  let retained := filterNuclei within nRows tumorG necroG
                  if env.gridRaises then (⟨true, false, true⟩, Outcome.skippedGridError)
                  else
                    let grid0 := gridOverlay retained
                    match add_percentage_columns intersects grid0
                        (some ⟨retained.map (fun p => p.2), true⟩) with
                    | none => (⟨false, false, true⟩, Outcome.completedNoTable)
                    | some _ => (⟨false, true, true⟩, Outcome.completedWithTable)

/-! ### Stage 1 lemmas and claims -/

theorem runStage1_preserves (gen : Subfolder → String) (subs : List Subfolder) :
    ∀ (s : St1State) (n : String), s n ≠ none → runStage1 gen subs s n = s n := by
  induction subs with
  | nil => intro s n _; rfl
  | cons a rest ih =>
    intro s n h
    have hstep : stage1Step gen s a n = s n := by
      unfold stage1Step
      cases hk : s (outName a.name) with
      | some v => rfl
      | none =>
        by_cases ht : a.tsvCount = 0
        · simp [ht]
        · rw [if_neg ht]
          show (if n = outName a.name then some (gen a) else s n) = s n
          by_cases hn : n = outName a.name
          · subst hn; exact absurd hk h
          · simp [hn]
    have h2 : stage1Step gen s a n ≠ none := by rw [hstep]; exact h
    calc runStage1 gen (a :: rest) s n
        = runStage1 gen rest (stage1Step gen s a) n := rfl
      _ = stage1Step gen s a n := ih (stage1Step gen s a) n h2
      _ = s n := hstep

theorem runStage1_defined (gen : Subfolder → String) (subs : List Subfolder) :
    ∀ (s : St1State) (sub : Subfolder), sub ∈ subs → sub.tsvCount ≠ 0 →
      runStage1 gen subs s (outName sub.name) ≠ none := by
  induction subs with
  | nil => intro s sub h _; exact absurd h (List.not_mem_nil _)
  | cons a rest ih =>
    intro s sub hm ht
    rcases List.mem_cons.mp hm with he | hr
    · subst he
      have hdef : stage1Step gen s sub (outName sub.name) ≠ none := by
        unfold stage1Step
        cases hk : s (outName sub.name) with
        | some v =>
          show s (outName sub.name) ≠ none
          rw [hk]; simp
        | none =>
          rw [if_neg ht]
          show (if outName sub.name = outName sub.name
            then some (gen sub) else s (outName sub.name)) ≠ none
          simp
      have hp := runStage1_preserves gen rest (stage1Step gen s sub) (outName sub.name) hdef
      show runStage1 gen rest (stage1Step gen s sub) (outName sub.name) ≠ none
      rw [hp]; exact hdef
    · exact ih (stage1Step gen s a) sub hr ht

theorem runStage1_noop (gen2 : Subfolder → String) (subs : List Subfolder) :
    ∀ s : St1State, (∀ sub ∈ subs, sub.tsvCount = 0 ∨ s (outName sub.name) ≠ none) →
      runStage1 gen2 subs s = s := by
  induction subs with
  | nil => intro s _; rfl
  | cons a rest ih =>
    intro s hp
    have hstep : stage1Step gen2 s a = s := by
      unfold stage1Step
      cases hk : s (outName a.name) with
      | some v => rfl
      | none =>
        rcases hp a (List.mem_cons_self a rest) with h0 | hne
        · simp [h0]
        · exact absurd hk hne
    show runStage1 gen2 rest (stage1Step gen2 s a) = s
    rw [hstep]
    exact ih s (fun sub hm => hp sub (List.mem_cons_of_mem a hm))

/-- C9: if a subfolder's destination file already exists, Stage 1 leaves it
untouched (no merge, no overwrite), and running Stage 1 a second time on
the same input is a no-op: the state after the second run equals the state
after the first, byte for byte, whatever bytes the second run would have
generated. -/
theorem C9_theorem (gen gen2 : Subfolder → String) (subs : List Subfolder)
    (s : St1State) (n : String) (h : s n ≠ none) :
    stage1Main gen subs s n = s n ∧
    stage1Main gen2 subs (stage1Main gen subs s) = stage1Main gen subs s := by
  constructor
  · exact runStage1_preserves gen (sortDesc subs) s n h
  · unfold stage1Main
    apply runStage1_noop
    intro sub hm
    by_cases ht : sub.tsvCount = 0
    · exact Or.inl ht
    · exact Or.inr (runStage1_defined gen (sortDesc subs) s sub hm ht)

/-- Witness for C9 at a concrete directory with one subfolder whose output
already exists: the pre-existing bytes survive the run. -/
theorem C9_witness :
    stage1Main (fun _ => "fresh") [⟨"A", 1⟩]
      (fun n => if n = "A.geojson" then some "old" else none) "A.geojson" = some "old" := by
  have h := C9_theorem (fun _ => "fresh") (fun _ => "fresh2") [⟨"A", 1⟩]
    (fun n => if n = "A.geojson" then some "old" else none) "A.geojson" (by simp)
  rw [h.1]
  simp

/-- C7 counterexample: the claim says the class name lymphocyte maps to
cyan, but the color table's keys carry the nuclei prefix, so the bare name
lymphocyte is not in the table and gets black. -/
theorem C7_counterexample :
    (mkFeature ⟨0, 0, "lymphocyte"⟩).color = (0, 0, 0) ∧
    (mkFeature ⟨0, 0, "lymphocyte"⟩).color ≠ (0, 255, 255) := by
  constructor
  · rfl
  · decide

/-- C7 as amended: the synthesized feature's color is the table entry for
its class name, where the table keys are nuclei_lymphocyte (cyan),
nuclei_tumor (red) and nuclei_other (yellow); any class name outside the
table gets black. -/
theorem C7_theorem :
    (∀ x y : ℚ, (mkFeature ⟨x, y, "nuclei_lymphocyte"⟩).color = (0, 255, 255)) ∧
    (∀ x y : ℚ, (mkFeature ⟨x, y, "nuclei_tumor"⟩).color = (255, 0, 0)) ∧
    (∀ x y : ℚ, (mkFeature ⟨x, y, "nuclei_other"⟩).color = (255, 255, 0)) ∧
    (∀ r : PointRow, COLORS.lookup r.name = none → (mkFeature r).color = (0, 0, 0)) := by
  refine ⟨fun x y => rfl, fun x y => rfl, fun x y => rfl, fun r h => ?_⟩
  show colorFor r.name = (0, 0, 0)
  unfold colorFor
  rw [h]

/-- Witness for C7 at a class name outside the table. -/
theorem C7_witness : (mkFeature ⟨0, 0, "stroma"⟩).color = (0, 0, 0) :=
  C7_theorem.2.2.2 ⟨0, 0, "stroma"⟩ (by decide)

/-- C8: for every rational coordinate pair, the synthesized ring has exactly
five vertices with the first equal to the last, its four edges are
axis-aligned of length 15, it is centered exactly on the input point, and
the first vertex is the bottom-left corner (minimal in both coordinates). -/
theorem C8_theorem (x y : ℚ) :
    (create_square_polygon x y 15).length = 5 ∧
    (create_square_polygon x y 15).head? = (create_square_polygon x y 15).getLast? ∧
    ((create_square_polygon x y 15).getD 1 (0, 0)).1
      - ((create_square_polygon x y 15).getD 0 (0, 0)).1 = 15 ∧
    ((create_square_polygon x y 15).getD 1 (0, 0)).2
      = ((create_square_polygon x y 15).getD 0 (0, 0)).2 ∧
    ((create_square_polygon x y 15).getD 2 (0, 0)).2
      - ((create_square_polygon x y 15).getD 1 (0, 0)).2 = 15 ∧
    ((create_square_polygon x y 15).getD 2 (0, 0)).1
      = ((create_square_polygon x y 15).getD 1 (0, 0)).1 ∧
    ((create_square_polygon x y 15).getD 2 (0, 0)).1
      - ((create_square_polygon x y 15).getD 3 (0, 0)).1 = 15 ∧
    ((create_square_polygon x y 15).getD 3 (0, 0)).2
      = ((create_square_polygon x y 15).getD 2 (0, 0)).2 ∧
    ((create_square_polygon x y 15).getD 3 (0, 0)).1
      = ((create_square_polygon x y 15).getD 0 (0, 0)).1 ∧
    (((create_square_polygon x y 15).getD 0 (0, 0)).1
      + ((create_square_polygon x y 15).getD 2 (0, 0)).1) / 2 = x ∧
    (((create_square_polygon x y 15).getD 0 (0, 0)).2
      + ((create_square_polygon x y 15).getD 2 (0, 0)).2) / 2 = y ∧
    (∀ q ∈ create_square_polygon x y 15,
      ((create_square_polygon x y 15).getD 0 (0, 0)).1 ≤ q.1 ∧
      ((create_square_polygon x y 15).getD 0 (0, 0)).2 ≤ q.2) := by
  have hl : create_square_polygon x y 15 =
      [(x - 15 / 2, y - 15 / 2), (x + 15 / 2, y - 15 / 2), (x + 15 / 2, y + 15 / 2),
       (x - 15 / 2, y + 15 / 2), (x - 15 / 2, y - 15 / 2)] := rfl
  rw [hl]
  simp only [List.getD_cons_zero, List.getD_cons_succ]
  refine ⟨rfl, rfl, by ring, trivial, by ring, trivial, by ring, trivial, trivial,
    by ring, by ring, ?_⟩
  intro q hq
  simp only [List.mem_cons, List.not_mem_nil, or_false] at hq
  have h15 : (0 : ℚ) ≤ 15 / 2 := by norm_num
  rcases hq with h | h | h | h | h <;> subst h <;> constructor <;> simp <;> linarith

/-- Witness for C8 at the origin. -/
theorem C8_witness : (create_square_polygon 0 0 15).length = 5 :=
  (C8_theorem 0 0).1

/-! ### Stage 2 lemmas and claims -/

theorem withIdx_mem_snd {α : Type} (l : List α) : ∀ (k : Nat) (p : Nat × α),
    p ∈ withIdx k l → p.2 ∈ l := by
  induction l with
  | nil => intro k p h; exact absurd h (List.not_mem_nil _)
  | cons a as ih =>
    intro k p h
    rcases List.mem_cons.mp h with he | hr
    · subst he; exact List.mem_cons_self _ _
    · exact List.mem_cons_of_mem _ (ih (k + 1) p hr)

theorem withIdx_exists {α : Type} (l : List α) : ∀ (k : Nat) (a : α),
    a ∈ l → ∃ i, (i, a) ∈ withIdx k l := by
  induction l with
  | nil => intro k a h; exact absurd h (List.not_mem_nil _)
  | cons b bs ih =>
    intro k a h
    rcases List.mem_cons.mp h with he | hr
    · subst he; exact ⟨k, List.mem_cons_self _ _⟩
    · obtain ⟨i, hi⟩ := ih (k + 1) a hr
      exact ⟨i, List.mem_cons_of_mem _ hi⟩

theorem withIdx_ge {α : Type} (l : List α) : ∀ (k : Nat) (p : Nat × α),
    p ∈ withIdx k l → k ≤ p.1 := by
  induction l with
  | nil => intro k p h; exact absurd h (List.not_mem_nil _)
  | cons a as ih =>
    intro k p h
    rcases List.mem_cons.mp h with he | hr
    · subst he; exact le_refl k
    · exact le_trans (Nat.le_succ k) (ih (k + 1) p hr)

theorem withIdx_unique {α : Type} (l : List α) : ∀ (k i : Nat) (a b : α),
    (i, a) ∈ withIdx k l → (i, b) ∈ withIdx k l → a = b := by
  induction l with
  | nil => intro k i a b h _; exact absurd h (List.not_mem_nil _)
  | cons c cs ih =>
    intro k i a b ha hb
    rcases List.mem_cons.mp ha with hea | hra <;> rcases List.mem_cons.mp hb with heb | hrb
    · injection hea with h1i h1a
      injection heb with h2i h2a
      rw [h1a, h2a]
    · injection hea with h1i h1a
      have h2 : k + 1 ≤ i := withIdx_ge cs (k + 1) (i, b) hrb
      omega
    · injection heb with h1i h1a
      have h2 : k + 1 ≤ i := withIdx_ge cs (k + 1) (i, a) hra
      omega
    · exact ih (k + 1) i a b hra hrb

theorem mem_nuclei_within_tumor {G : Type} (within : G → G → Bool)
    (nuclei : List (NRow G)) (tumor : List G) (p : Nat × NRow G) :
    p ∈ nuclei_within_tumor within nuclei tumor ↔
      p ∈ withIdx 0 nuclei ∧ ∃ t ∈ tumor, within p.2.geom t = true := by
  unfold nuclei_within_tumor
  rw [List.mem_flatMap]
  constructor
  · rintro ⟨q, hq, hp⟩
    rw [List.mem_map] at hp
    obtain ⟨t, ht, hqp⟩ := hp
    rw [List.mem_filter] at ht
    subst hqp
    exact ⟨hq, t, ht.1, ht.2⟩
  · rintro ⟨hq, t, ht, hw⟩
    exact ⟨p, hq, List.mem_map.mpr ⟨t, List.mem_filter.mpr ⟨ht, hw⟩, rfl⟩⟩

theorem mem_necrosisIds {G : Type} (within : G → G → Bool) (rows : List (Nat × NRow G))
    (necrosis : List G) (i : Nat) :
    i ∈ necrosisIds within rows necrosis ↔
      ∃ p ∈ rows, p.1 = i ∧ ∃ c ∈ necrosis, within p.2.geom c = true := by
  unfold necrosisIds
  rw [List.mem_map]
  constructor
  · rintro ⟨p, hp, hpi⟩
    rw [List.mem_filter] at hp
    refine ⟨p, hp.1, hpi, ?_⟩
    exact List.any_eq_true.mp hp.2
  · rintro ⟨p, hp, hpi, c, hc, hw⟩
    exact ⟨p, List.mem_filter.mpr ⟨hp, List.any_eq_true.mpr ⟨c, hc, hw⟩⟩, hpi⟩

theorem dropDupGeom_subset {G : Type} [DecidableEq G] (l : List (Nat × NRow G)) :
    ∀ (seen : List G) (p : Nat × NRow G), p ∈ dropDupGeom l seen → p ∈ l := by
  induction l with
  | nil => intro seen p h; exact absurd h (List.not_mem_nil _)
  | cons q qs ih =>
    intro seen p h
    unfold dropDupGeom at h
    by_cases hs : q.2.geom ∈ seen
    · rw [if_pos hs] at h
      exact List.mem_cons_of_mem _ (ih seen p h)
    · rw [if_neg hs] at h
      rcases List.mem_cons.mp h with he | hr
      · subst he; exact List.mem_cons_self _ _
      · exact List.mem_cons_of_mem _ (ih _ p hr)

theorem mem_map_dropDupGeom {G : Type} [DecidableEq G] (l : List (Nat × NRow G)) :
    ∀ (seen : List G) (g : G),
      g ∈ (dropDupGeom l seen).map (fun p => p.2.geom) ↔
        g ∈ l.map (fun p => p.2.geom) ∧ g ∉ seen := by
  induction l with
  | nil => intro seen g; simp [dropDupGeom]
  | cons q qs ih =>
    intro seen g
    unfold dropDupGeom
    by_cases hs : q.2.geom ∈ seen
    · rw [if_pos hs, ih seen g]
      simp only [List.map_cons, List.mem_cons]
      constructor
      · rintro ⟨hg, hn⟩; exact ⟨Or.inr hg, hn⟩
      · rintro ⟨hor, hn⟩
        rcases hor with he | hg
        · subst he; exact absurd hs hn
        · exact ⟨hg, hn⟩
    · rw [if_neg hs]
      simp only [List.map_cons, List.mem_cons]
      rw [ih (q.2.geom :: seen) g]
      constructor
      · rintro (he | ⟨hg, hn⟩)
        · subst he; exact ⟨Or.inl rfl, hs⟩
        · exact ⟨Or.inr hg, fun hc => hn (List.mem_cons_of_mem _ hc)⟩
      · rintro ⟨hor, hn⟩
        by_cases heq : g = q.2.geom
        · exact Or.inl heq
        · rcases hor with he | hg
          · exact absurd he heq
          · refine Or.inr ⟨hg, fun hc => ?_⟩
            rcases List.mem_cons.mp hc with h1 | h2
            · exact heq h1
            · exact hn h2

theorem nodup_map_dropDupGeom {G : Type} [DecidableEq G] (l : List (Nat × NRow G)) :
    ∀ seen : List G, ((dropDupGeom l seen).map (fun p => p.2.geom)).Nodup := by
  induction l with
  | nil => intro seen; simp [dropDupGeom]
  | cons q qs ih =>
    intro seen
    unfold dropDupGeom
    by_cases hs : q.2.geom ∈ seen
    · rw [if_pos hs]; exact ih seen
    · rw [if_neg hs]
      simp only [List.map_cons]
      refine List.nodup_cons.mpr ⟨fun hc => ?_, ih _⟩
      rw [mem_map_dropDupGeom] at hc
      exact hc.2 (List.mem_cons_self _ _)

/-- C1: every feature of the persisted within-tumor-not-necrosis collection
lies within at least one tumor polygon and within no necrosis polygon; no
two retained features share a geometry; and a geometry appears in the
output exactly when some input nucleus carries it, it is within some tumor
polygon, and it is within no necrosis polygon — the set difference of the
tumor join minus the necrosis join, matched by row index, after exact
geometry deduplication. -/
theorem C1_theorem {G : Type} [DecidableEq G] (within : G → G → Bool)
    (nuclei : List (NRow G)) (tumor necrosis : List G) :
    (∀ p ∈ filterNuclei within nuclei tumor necrosis,
      (∃ t ∈ tumor, within p.2.geom t = true) ∧
      (∀ c ∈ necrosis, within p.2.geom c = false)) ∧
    ((filterNuclei within nuclei tumor necrosis).map (fun p => p.2.geom)).Nodup ∧
    (∀ g : G, g ∈ (filterNuclei within nuclei tumor necrosis).map (fun p => p.2.geom) ↔
      ((∃ n ∈ nuclei, n.geom = g) ∧ (∃ t ∈ tumor, within g t = true) ∧
        (∀ c ∈ necrosis, within g c = false))) := by
  have hfact : ∀ p ∈ (nuclei_within_tumor within nuclei tumor).filter
      (fun p => decide (p.1 ∉ necrosisIds within (nuclei_within_tumor within nuclei tumor)
        necrosis)),
      p ∈ withIdx 0 nuclei ∧ (∃ t ∈ tumor, within p.2.geom t = true) ∧
        (∀ c ∈ necrosis, within p.2.geom c = false) := by
    intro p hp
    rw [List.mem_filter] at hp
    have hwt := (mem_nuclei_within_tumor within nuclei tumor p).mp hp.1
    have hni : p.1 ∉ necrosisIds within (nuclei_within_tumor within nuclei tumor) necrosis :=
      of_decide_eq_true hp.2
    refine ⟨hwt.1, hwt.2, fun c hc => ?_⟩
    apply Bool.eq_false_iff.mpr
    intro hw
    exact hni ((mem_necrosisIds within _ necrosis p.1).mpr ⟨p, hp.1, rfl, c, hc, hw⟩)
  refine ⟨?_, ?_, ?_⟩
  · intro p hp
    have hp2 := dropDupGeom_subset _ _ p hp
    exact (hfact p hp2).2
  · exact nodup_map_dropDupGeom _ []
  · intro g
    unfold filterNuclei
    rw [mem_map_dropDupGeom]
    simp only [List.not_mem_nil, not_false_iff, and_true]
    constructor
    · intro hg
      rw [List.mem_map] at hg
      obtain ⟨p, hp, hpg⟩ := hg
      obtain ⟨hidx, htum, hnec⟩ := hfact p hp
      subst hpg
      exact ⟨⟨p.2, withIdx_mem_snd nuclei 0 p hidx, rfl⟩, htum, hnec⟩
    · rintro ⟨⟨n, hn, hng⟩, ⟨t, ht, hw⟩, hnec⟩
      obtain ⟨i, hi⟩ := withIdx_exists nuclei 0 n hn
      have hwt : (i, n) ∈ nuclei_within_tumor within nuclei tumor :=
        (mem_nuclei_within_tumor within nuclei tumor (i, n)).mpr
          ⟨hi, t, ht, by rw [show (i, n).2.geom = g from hng]; exact hw⟩
      have hni : i ∉ necrosisIds within (nuclei_within_tumor within nuclei tumor) necrosis := by
        intro hc
        obtain ⟨p, hp, hpi, c, hc2, hwc⟩ := (mem_necrosisIds within _ necrosis i).mp hc
        have hpidx := ((mem_nuclei_within_tumor within nuclei tumor p).mp hp).1
        have hpn : p.2 = n := by
          apply withIdx_unique nuclei 0 i p.2 n
          · rw [← hpi]; exact hpidx
          · exact hi
        rw [hpn, hng] at hwc
        have := hnec c hc2
        rw [this] at hwc
        exact Bool.false_ne_true hwc
      refine List.mem_map.mpr ⟨(i, n), List.mem_filter.mpr ⟨hwt, decide_eq_true hni⟩, hng⟩

/-- Witness for C1 at a concrete sample: one nucleus with geometry 5 within
the single tumor polygon and no necrosis polygons. -/
theorem C1_witness :
    ((filterNuclei (fun a b => a == b) [⟨(5 : ℕ), NameVal.str "x"⟩] [5] []).map
      (fun p => p.2.geom)).Nodup :=
  (C1_theorem (fun a b => a == b) [⟨(5 : ℕ), NameVal.str "x"⟩] [5] []).2.1

theorem percentageEntry_eq (n total : Nat) (h : n ≤ total) :
    percentageEntry n total =
      PVal.num (if total = 0 then 0 else 100 * (n : ℚ) / (total : ℚ)) := by
  by_cases h0 : total = 0
  · subst h0
    have hn : n = 0 := Nat.le_zero.mp h
    subst hn
    simp [percentageEntry, pdiv, pvalMul100, fillna0]
  · have hq : (total : ℚ) ≠ 0 := Nat.cast_ne_zero.mpr h0
    unfold percentageEntry pdiv
    rw [if_neg hq]
    show fillna0 (pvalMul100 (PVal.num ((n : ℚ) / (total : ℚ)))) = _
    unfold pvalMul100 fillna0
    rw [if_neg h0]
    show PVal.num ((n : ℚ) / (total : ℚ) * 100) = PVal.num (100 * (n : ℚ) / (total : ℚ))
    congr 1
    ring

/-- C2: on every row the aggregation emits, the total count is the sum of
the per-class counts, the count columns are indexed exactly by the class
names observed among the retained nuclei in first-occurrence order, and
each percentage cell is the finite value 100 * count / total when the
total is positive and 0 when the total is zero — never NaN and never
infinite. -/
theorem C2_theorem {G : Type} [DecidableEq G] (intersects : G → G → Bool) (grid0 : List G)
    (nf : NFrame G) (rows : List (StatRow G))
    (h : add_percentage_columns intersects grid0 (some nf) = some rows) :
    ∀ row ∈ rows,
      row.counts.map (fun p => p.1) = uniqueList (nf.rows.map (fun r => r.class_name)) [] ∧
      row.total_cell_cnt = (row.counts.map (fun p => p.2)).sum ∧
      row.percentages = row.counts.map (fun p =>
        (p.1, PVal.num (if row.total_cell_cnt = 0 then 0
          else 100 * (p.2 : ℚ) / (row.total_cell_cnt : ℚ)))) := by
  intro row hrow
  simp only [add_percentage_columns] at h
  split at h
  · exact absurd h (by simp)
  · split at h
    · exact absurd h (by simp)
    · split at h
      · exact absurd h (by simp)
      · have hr := Option.some.inj h
        subst hr
        rw [List.mem_map] at hrow
        obtain ⟨gc, hgc, hbuild⟩ := hrow
        rw [List.mem_map] at hgc
        obtain ⟨g, hg, hgc2⟩ := hgc
        subst hgc2
        subst hbuild
        refine ⟨?_, rfl, ?_⟩
        · show (List.map (fun c => (c, get_total_cell_cnt_per_class intersects nf.rows g c))
            (uniqueList (nf.rows.map (fun r => r.class_name)) [])).map (fun p => p.1) = _
          rw [List.map_map]
          exact List.map_id _
        · dsimp only
          apply List.map_congr_left
          intro p hp
          have hmem : p.2 ∈ (List.map (fun c =>
              (c, get_total_cell_cnt_per_class intersects nf.rows g c))
              (uniqueList (nf.rows.map (fun r => r.class_name)) [])).map
              (fun p => p.2) :=
            List.mem_map.mpr ⟨p, hp, rfl⟩
          have hle := List.single_le_sum (fun x _ => Nat.zero_le x) _ hmem
          rw [percentageEntry_eq _ _ hle]

/-- Witness for C2 at one grid cell and one retained nucleus of class a. -/
theorem C2_witness :
    (⟨0, [(NameVal.str "a", 1)], 1, [(NameVal.str "a", PVal.num 100)]⟩ : StatRow ℕ).total_cell_cnt
      = ((⟨0, [(NameVal.str "a", 1)], 1,
          [(NameVal.str "a", PVal.num 100)]⟩ : StatRow ℕ).counts.map (fun p => p.2)).sum := by
  have h0 : add_percentage_columns (fun _ _ => true) [(0 : ℕ)]
      (some ⟨[⟨0, NameVal.str "a"⟩], true⟩) =
      some [⟨0, [(NameVal.str "a", 1)], 1, [(NameVal.str "a", PVal.num 100)]⟩] := by
    simp [add_percentage_columns, uniqueList, get_total_cell_cnt_per_class,
      percentageEntry, pdiv, pvalMul100, fillna0]
  have h := C2_theorem (fun _ _ => true) [(0 : ℕ)] ⟨[⟨0, NameVal.str "a"⟩], true⟩ _ h0
  exact (h _ (List.mem_singleton.mpr rfl)).2.1

/-- C3 (code bug evidence): on an unparsable tissue classification string
the null-name placeholder is substituted as documented, but the very next
step, the lower call of the tissue class_name lambda, raises an uncaught
AttributeError on the null name, so the sample does not continue: the run
crashes.  Nuclei payloads take the guard-free lambda and do continue. -/
theorem C3_theorem :
    parse_classification (fun _ => none) (Payload.pstr "oops") = nullNameDict ∧
    nullNameDict = ⟨true, NameVal.null, false⟩ ∧
    processTissue (fun _ => none) ([⟨0, Payload.pstr "oops"⟩] : List (TFeatureIn ℕ)) =
      Except.error "AttributeError" ∧
    processNuclei (fun _ => none) ([⟨0, Payload.pstr "oops"⟩] : List (NFeatureIn ℕ)) =
      [⟨0, NameVal.null⟩] ∧
    (process_geojson_sample (fun _ => none) (fun _ _ => true) (fun _ _ => true) (fun _ => [])
        (⟨false, false, 5000, some [⟨0, Payload.pstr "oops"⟩], some [], true, true,
          false, false⟩ : Env ℕ)).2 = Outcome.crashedAttributeError :=
  ⟨rfl, rfl, rfl, rfl, rfl⟩

theorem ps_skip_output {G : Type} [DecidableEq G] (jp : String → Option CDict)
    (within intersects : G → G → Bool) (go : List (Nat × NRow G) → List G) (env : Env G)
    (h : env.outputExists = true) :
    process_geojson_sample jp within intersects go env =
      (⟨env.lockExists, true, false⟩, Outcome.skippedOutputExists) := by
  simp [process_geojson_sample, h]

theorem ps_skip_locked {G : Type} [DecidableEq G] (jp : String → Option CDict)
    (within intersects : G → G → Bool) (go : List (Nat × NRow G) → List G) (env : Env G)
    (h1 : env.outputExists = false) (h2 : env.lockExists = true) :
    process_geojson_sample jp within intersects go env =
      (⟨true, false, false⟩, Outcome.skippedLocked) := by
  simp [process_geojson_sample, h1, h2]

theorem ps_skip_small {G : Type} [DecidableEq G] (jp : String → Option CDict)
    (within intersects : G → G → Bool) (go : List (Nat × NRow G) → List G) (env : Env G)
    (h1 : env.outputExists = false) (h2 : env.lockExists = false)
    (h3 : env.tissueSize < 2 * 1024) :
    process_geojson_sample jp within intersects go env =
      (⟨true, false, false⟩, Outcome.skippedSmallTissue) := by
  simp [process_geojson_sample, h1, h2, h3]

theorem ps_skip_tissue_load {G : Type} [DecidableEq G] (jp : String → Option CDict)
    (within intersects : G → G → Bool) (go : List (Nat × NRow G) → List G) (env : Env G)
    (h1 : env.outputExists = false) (h2 : env.lockExists = false)
    (h3 : ¬ env.tissueSize < 2 * 1024) (h4 : env.tissueLoad = none) :
    process_geojson_sample jp within intersects go env =
      (⟨true, false, false⟩, Outcome.skippedTissueLoadError) := by
  simp [process_geojson_sample, h1, h2, h3, h4]

theorem ps_skip_nuclei_load {G : Type} [DecidableEq G] (jp : String → Option CDict)
    (within intersects : G → G → Bool) (go : List (Nat × NRow G) → List G) (env : Env G)
    (ts : List (TFeatureIn G)) (h1 : env.outputExists = false) (h2 : env.lockExists = false)
    (h3 : ¬ env.tissueSize < 2 * 1024) (h4 : env.tissueLoad = some ts)
    (h5 : env.nucleiLoad = none) :
    process_geojson_sample jp within intersects go env =
      (⟨true, false, false⟩, Outcome.skippedNucleiLoadError) := by
  simp [process_geojson_sample, h1, h2, h3, h4, h5]

theorem ps_state_of_outcome {G : Type} [DecidableEq G] (jp : String → Option CDict)
    (within intersects : G → G → Bool) (go : List (Nat × NRow G) → List G) (env : Env G) :
    ((process_geojson_sample jp within intersects go env).2 = Outcome.skippedJoinError →
      (process_geojson_sample jp within intersects go env).1 = ⟨true, false, false⟩) ∧
    ((process_geojson_sample jp within intersects go env).2 = Outcome.skippedGridError →
      (process_geojson_sample jp within intersects go env).1 = ⟨true, false, true⟩) ∧
    ((process_geojson_sample jp within intersects go env).2 = Outcome.completedNoTable →
      (process_geojson_sample jp within intersects go env).1 = ⟨false, false, true⟩) := by
  simp only [process_geojson_sample]
  repeat' split
  all_goals simp

/-- C4 counterexample: a fresh sample (no output, no lock) with a 100 byte
tissue file is skipped, but the lock marker, created just before the size
check, is still present afterwards, against the claim that no lock marker
remains. -/
theorem C4_counterexample :
    (process_geojson_sample (fun _ => none) (fun _ _ => true) (fun _ _ => true) (fun _ => [])
        (⟨false, false, 100, none, none, true, true, false, false⟩ : Env ℕ)).2
      = Outcome.skippedSmallTissue ∧
    (process_geojson_sample (fun _ => none) (fun _ _ => true) (fun _ _ => true) (fun _ => [])
        (⟨false, false, 100, none, none, true, true, false, false⟩ : Env ℕ)).1.outputPresent
      = false ∧
    (process_geojson_sample (fun _ => none) (fun _ _ => true) (fun _ _ => true) (fun _ => [])
        (⟨false, false, 100, none, none, true, true, false, false⟩ : Env ℕ)).1.lockPresent
      = true :=
  ⟨rfl, rfl, rfl⟩

/-- C4 as amended: a sample admitted past the output and lock checks whose
tissue file is under 2 KiB is skipped before any load, and no statistics
table is produced, but the lock marker created before the size check
remains. -/
theorem C4_theorem {G : Type} [DecidableEq G] (jp : String → Option CDict)
    (within intersects : G → G → Bool) (go : List (Nat × NRow G) → List G) (env : Env G)
    (h1 : env.outputExists = false) (h2 : env.lockExists = false)
    (h3 : env.tissueSize < 2 * 1024) :
    process_geojson_sample jp within intersects go env =
      (⟨true, false, false⟩, Outcome.skippedSmallTissue) :=
  ps_skip_small jp within intersects go env h1 h2 h3

/-- Witness for C4 at a concrete small-tissue sample. -/
theorem C4_witness :
    process_geojson_sample (fun _ => none) (fun _ _ => true) (fun _ _ => true) (fun _ => [])
      (⟨false, false, 100, none, none, true, true, false, false⟩ : Env ℕ) =
      (⟨true, false, false⟩, Outcome.skippedSmallTissue) :=
  C4_theorem _ _ _ _ _ rfl rfl (by decide)

/-- C5 counterexample: a caught grid-step exception leaves the sample with
the filtered nuclei collection already persisted, so the sample is not
left with no output; only the statistics table is missing. -/
theorem C5_counterexample :
    (process_geojson_sample (fun _ => none) (fun _ _ => true) (fun _ _ => true) (fun _ => [])
        (⟨false, false, 5000, some [⟨0, Payload.pdict ⟨true, NameVal.str "tumor", false⟩⟩],
          some [⟨0, Payload.pdict ⟨true, NameVal.str "nuclei_tumor", false⟩⟩], true, true,
          false, true⟩ : Env ℕ)).2 = Outcome.skippedGridError ∧
    (process_geojson_sample (fun _ => none) (fun _ _ => true) (fun _ _ => true) (fun _ => [])
        (⟨false, false, 5000, some [⟨0, Payload.pdict ⟨true, NameVal.str "tumor", false⟩⟩],
          some [⟨0, Payload.pdict ⟨true, NameVal.str "nuclei_tumor", false⟩⟩], true, true,
          false, true⟩ : Env ℕ)).1.geojsonPresent = true :=
  ⟨rfl, rfl⟩

/-- C5 as amended: a caught exception in the spatial join or the grid step
leaves no statistics table and the lock marker still present (the lock is
deleted on no caught-failure path), so on retry the sample is skipped while
the lock remains; in the grid-step case the filtered collection has already
been persisted. -/
theorem C5_theorem {G : Type} [DecidableEq G] (jp : String → Option CDict)
    (within intersects : G → G → Bool) (go : List (Nat × NRow G) → List G) (env : Env G)
    (h : (process_geojson_sample jp within intersects go env).2 = Outcome.skippedJoinError ∨
      (process_geojson_sample jp within intersects go env).2 = Outcome.skippedGridError) :
    (process_geojson_sample jp within intersects go env).1.outputPresent = false ∧
    (process_geojson_sample jp within intersects go env).1.lockPresent = true ∧
    (∀ env2 : Env G, env2.outputExists = false → env2.lockExists = true →
      process_geojson_sample jp within intersects go env2 =
        (⟨true, false, false⟩, Outcome.skippedLocked)) := by
  have hs := ps_state_of_outcome jp within intersects go env
  refine ⟨?_, ?_, fun env2 h1 h2 => ps_skip_locked jp within intersects go env2 h1 h2⟩
  · rcases h with h | h
    · rw [hs.1 h]
    · rw [hs.2.1 h]
  · rcases h with h | h
    · rw [hs.1 h]
    · rw [hs.2.1 h]

/-- Witness for C5 at a concrete sample whose spatial join raises. -/
theorem C5_witness :
    (process_geojson_sample (fun _ => none) (fun _ _ => true) (fun _ _ => true) (fun _ => [])
        (⟨false, false, 5000, some [], some [], true, true, true, false⟩ : Env ℕ)).1.lockPresent
      = true := by
  have h := C5_theorem (fun _ => none) (fun _ _ => true) (fun _ _ => true) (fun _ => [])
    (⟨false, false, 5000, some [], some [], true, true, true, false⟩ : Env ℕ) (Or.inl rfl)
  exact h.2.1

/-- C6: the skip checks run in the order output-exists, lock-exists, tissue
size, tissue load, nuclei load, each short-circuiting the sample, and the
presence of the output table or of a pre-existing lock alone skips the
sample before any loading or spatial work. -/
theorem C6_theorem {G : Type} [DecidableEq G] (jp : String → Option CDict)
    (within intersects : G → G → Bool) (go : List (Nat × NRow G) → List G) (env : Env G) :
    (env.outputExists = true →
      process_geojson_sample jp within intersects go env =
        (⟨env.lockExists, true, false⟩, Outcome.skippedOutputExists)) ∧
    (env.outputExists = false → env.lockExists = true →
      process_geojson_sample jp within intersects go env =
        (⟨true, false, false⟩, Outcome.skippedLocked)) ∧
    (env.outputExists = false → env.lockExists = false → env.tissueSize < 2 * 1024 →
      process_geojson_sample jp within intersects go env =
        (⟨true, false, false⟩, Outcome.skippedSmallTissue)) ∧
    (env.outputExists = false → env.lockExists = false → ¬ env.tissueSize < 2 * 1024 →
      env.tissueLoad = none →
      process_geojson_sample jp within intersects go env =
        (⟨true, false, false⟩, Outcome.skippedTissueLoadError)) ∧
    (∀ ts : List (TFeatureIn G), env.outputExists = false → env.lockExists = false →
      ¬ env.tissueSize < 2 * 1024 → env.tissueLoad = some ts → env.nucleiLoad = none →
      process_geojson_sample jp within intersects go env =
        (⟨true, false, false⟩, Outcome.skippedNucleiLoadError)) :=
  ⟨fun h1 => ps_skip_output jp within intersects go env h1,
   fun h1 h2 => ps_skip_locked jp within intersects go env h1 h2,
   fun h1 h2 h3 => ps_skip_small jp within intersects go env h1 h2 h3,
   fun h1 h2 h3 h4 => ps_skip_tissue_load jp within intersects go env h1 h2 h3 h4,
   fun ts h1 h2 h3 h4 h5 => ps_skip_nuclei_load jp within intersects go env ts h1 h2 h3 h4 h5⟩

/-- Witness for C6 at a sample whose output table already exists. -/
theorem C6_witness :
    process_geojson_sample (fun _ => none) (fun _ _ => true) (fun _ _ => true) (fun _ => [])
      (⟨true, true, 0, none, none, true, true, false, false⟩ : Env ℕ) =
      (⟨true, true, false⟩, Outcome.skippedOutputExists) :=
  (C6_theorem (fun _ => none) (fun _ _ => true) (fun _ _ => true) (fun _ => [])
    (⟨true, true, 0, none, none, true, true, false, false⟩ : Env ℕ)).1 rfl

/-- C10: add_percentage_columns returns none when the filtered nuclei set
is empty, when the class_name column is absent, or when the grid tiling is
empty; a sample whose grid step completes with none ends with no
statistics table and no lock marker, yet the filtered collection already
persisted, and such a sample passes the output and lock skip checks again
on a subsequent run. -/
theorem C10_theorem {G : Type} [DecidableEq G] (jp : String → Option CDict)
    (within intersects : G → G → Bool) (go : List (Nat × NRow G) → List G) :
    (∀ (grid0 : List G) (nf : NFrame G), nf.rows = [] →
      add_percentage_columns intersects grid0 (some nf) = none) ∧
    (∀ (grid0 : List G) (nf : NFrame G), nf.hasClassName = false →
      add_percentage_columns intersects grid0 (some nf) = none) ∧
    (∀ nuclei : Option (NFrame G), add_percentage_columns intersects [] nuclei = none) ∧
    (∀ env : Env G,
      (process_geojson_sample jp within intersects go env).2 = Outcome.completedNoTable →
      (process_geojson_sample jp within intersects go env).1 = ⟨false, false, true⟩) ∧
    (∀ env : Env G, env.outputExists = false → env.lockExists = false →
      (process_geojson_sample jp within intersects go env).2 ≠ Outcome.skippedOutputExists ∧
      (process_geojson_sample jp within intersects go env).2 ≠ Outcome.skippedLocked) := by
  refine ⟨?_, ?_, ?_, ?_, ?_⟩
  · intro grid0 nf h
    simp [add_percentage_columns, h]
  · intro grid0 nf h
    by_cases he : nf.rows.isEmpty <;> simp [add_percentage_columns, h, he]
  · intro nuclei
    rcases nuclei with _ | nf
    · rfl
    · by_cases he : nf.rows.isEmpty <;> by_cases hc : nf.hasClassName <;>
        simp [add_percentage_columns, he, hc]
  · intro env
    exact (ps_state_of_outcome jp within intersects go env).2.2
  · intro env h1 h2
    simp only [process_geojson_sample, h1, h2]
    constructor <;>
      · repeat' split
        all_goals simp_all

/-- Witness for C10 at a sample whose filtered nuclei set is empty: no
table, no lock, filtered collection persisted. -/
theorem C10_witness :
    (process_geojson_sample (fun _ => none) (fun _ _ => true) (fun _ _ => true) (fun _ => [])
        (⟨false, false, 5000, some [], some [], true, true, false, false⟩ : Env ℕ)).1
      = ⟨false, false, true⟩ :=
  (C10_theorem (fun _ => none) (fun _ _ => true) (fun _ _ => true) (fun _ => [])).2.2.2.1
    (⟨false, false, 5000, some [], some [], true, true, false, false⟩ : Env ℕ) rfl
